import Mathlib

/-!
# Verification of the remote-desk media pipeline

A shallow embedding of the remote-desk repository (frame data model,
pixel-format converter, video scaler, pipeline assembler, X11 capture
engine, and discovery receiver), with theorems settling the spec claims.

Byte buffers are modelled as `List Nat` (each element a byte value);
machine integers are `Nat`/`Int` with explicit truncation where the
source truncates.  Fallible or undefined operations return `Option`.
-/

namespace RemoteDesk

/-! ## Frame data model (src/core/frame.h) -/

/-- Frame formats, from `enum class FrameFormat` in frame.h.
Numeric codes: UNKNOWN = 0, video formats 100-110, audio formats 200-207. -/
inductive FrameFormat where
  | UNKNOWN
  | VIDEO_BASE
  | I420
  | NV12
  | RGB24
  | BGR24
  | RGBA32
  | BGRA32
  | H264
  | H265
  | VP8
  | VP9
  | AUDIO_BASE
  | PCM_S16LE
  | PCM_F32LE
  | AAC
  | MP3
  | OPUS
  | G711_PCMU
  | G711_PCMA
deriving DecidableEq, Repr

/-- Numeric code of each format, as declared in the C++ enum. -/
def FrameFormat.code : FrameFormat → Nat
  | .UNKNOWN => 0
  | .VIDEO_BASE => 100
  | .I420 => 101
  | .NV12 => 102
  | .RGB24 => 103
  | .BGR24 => 104
  | .RGBA32 => 105
  | .BGRA32 => 106
  | .H264 => 107
  | .H265 => 108
  | .VP8 => 109
  | .VP9 => 110
  | .AUDIO_BASE => 200
  | .PCM_S16LE => 201
  | .PCM_F32LE => 202
  | .AAC => 203
  | .MP3 => 204
  | .OPUS => 205
  | .G711_PCMU => 206
  | .G711_PCMA => 207

/-- `GetFrameType`: `(value / 100) * 100`, the hundreds digit of the code. -/
def GetFrameType (f : FrameFormat) : Nat :=
  f.code / 100 * 100

/-- `VideoFrameInfo` from frame.h (width/height are uint16 in the source,
framerate uint32; modelled as Nat). -/
structure VideoFrameInfo where
  width : Nat := 0
  height : Nat := 0
  framerate : Nat := 0
  is_keyframe : Bool := false
deriving DecidableEq, Repr

/-- `Frame`: a `DataBuffer` (byte buffer with a size counter) plus timestamp,
format and video metadata.  The audio arm of the source's union is not
modelled (no claim concerns audio frames).  `data` is the buffer contents;
`size` mirrors `Size()` as maintained by `SetSize`. -/
structure Frame where
  data : List Nat := []
  size : Nat := 0
  timestamp : Int := 0
  format : FrameFormat := .UNKNOWN
  video_info : VideoFrameInfo := {}
deriving DecidableEq, Repr

/-- `Frame::IsValid()`: `Data() != nullptr && Size() > 0`.  A null buffer is
modelled as the empty list. -/
def Frame.IsValid (f : Frame) : Bool :=
  !f.data.isEmpty && f.size != 0

/-- `Frame::IsVideo()`: `GetFrameType(format) == FrameFormat::VIDEO_BASE`. -/
def Frame.IsVideo (f : Frame) : Bool :=
  GetFrameType f.format == 100

/-- Accessor `width()` (reads `video_info.width`). -/
def Frame.width (f : Frame) : Nat := f.video_info.width

/-- Accessor `height()` (reads `video_info.height`). -/
def Frame.height (f : Frame) : Nat := f.video_info.height

/-- `video_info.framerate`. -/
def Frame.framerate (f : Frame) : Nat := f.video_info.framerate

/-- `video_info.is_keyframe`. -/
def Frame.is_keyframe (f : Frame) : Bool := f.video_info.is_keyframe

/-! ## Frame fan-out (src/core/pipeline_interfaces.cpp)

`ISource::DeliverFrame` drops null/invalid frames, then passes the same
shared reference to every registered sink in insertion order.  Since every
sink receives the identical frame, the delivery is modelled as the frame
that reaches the sinks, `none` when the frame is dropped. -/

/-- `ISource::DeliverFrame`: the frame handed to each sink's `OnFrame`,
or `none` when the frame is invalid and silently dropped. -/
def deliverFrame (f : Frame) : Option Frame :=
  if f.IsValid then some f else none

/-! ## Pixel format converter (src/processors/video_scaler.cpp, converter part)

The low-level conversion loops all have the shape
`for (i = 0; i < pixel_count; ++i) write a fixed-size chunk at dst[c*i]`;
with the destination buffer of length `c * pixel_count` this fills the
buffer with the concatenation of the per-pixel chunks, in pixel order.
`forPixels n f` is that concatenation (iteration `0` first). -/

def forPixels : Nat → (Nat → List Nat) → List Nat
  | 0, _ => []
  | n + 1, f => forPixels n f ++ f n

/-- `PixelFormatConverterConfig` from pixel_format_converter.h. -/
structure PixelFormatConverterConfig where
  input_format : FrameFormat := .BGRA32
  output_format : FrameFormat := .I420
  enable_threading : Bool := true
deriving DecidableEq, Repr

/-- `PixelFormatConverter::IsFormatSupported`. -/
def IsFormatSupported : FrameFormat → Bool
  | .RGB24 | .BGR24 | .RGBA32 | .BGRA32 | .I420 => true
  | _ => false

/-- `PixelFormatConverter::CalculateOutputFrameSize` (integer division,
exactly as in the source: I420 is `w*h + (w*h)/2`). -/
def CalculateOutputFrameSize (width height : Nat) (format : FrameFormat) : Nat :=
  match format with
  | .RGB24 | .BGR24 => width * height * 3
  | .RGBA32 | .BGRA32 => width * height * 4
  | .I420 => width * height + width * height / 2
  | _ => 0

/-- `ConvertBGRA32ToRGBA32`: per pixel `dst = [src[4i+2], src[4i+1], src[4i], src[4i+3]]`. -/
def convertBGRA32ToRGBA32 (src : List Nat) (width height : Nat) : List Nat :=
  forPixels (width * height) fun i =>
    [src.getD (i * 4 + 2) 0, src.getD (i * 4 + 1) 0, src.getD (i * 4 + 0) 0,
     src.getD (i * 4 + 3) 0]

/-- `ConvertRGBA32ToBGRA32`: the same R/B swap. -/
def convertRGBA32ToBGRA32 (src : List Nat) (width height : Nat) : List Nat :=
  forPixels (width * height) fun i =>
    [src.getD (i * 4 + 2) 0, src.getD (i * 4 + 1) 0, src.getD (i * 4 + 0) 0,
     src.getD (i * 4 + 3) 0]

/-- `ConvertRGB24ToBGR24`: per pixel `dst = [src[3i+2], src[3i+1], src[3i]]`. -/
def convertRGB24ToBGR24 (src : List Nat) (width height : Nat) : List Nat :=
  forPixels (width * height) fun i =>
    [src.getD (i * 3 + 2) 0, src.getD (i * 3 + 1) 0, src.getD (i * 3 + 0) 0]

/-- `ConvertBGR24ToRGB24` calls `ConvertRGB24ToBGR24` (same operation). -/
def convertBGR24ToRGB24 (src : List Nat) (width height : Nat) : List Nat :=
  convertRGB24ToBGR24 src width height

/-- `ConvertRGB24ToRGBA32` (alpha set to 255). -/
def convertRGB24ToRGBA32 (src : List Nat) (width height : Nat) : List Nat :=
  forPixels (width * height) fun i =>
    [src.getD (i * 3 + 0) 0, src.getD (i * 3 + 1) 0, src.getD (i * 3 + 2) 0, 255]

/-- `ConvertRGB24ToBGRA32` (alpha set to 255). -/
def convertRGB24ToBGRA32 (src : List Nat) (width height : Nat) : List Nat :=
  forPixels (width * height) fun i =>
    [src.getD (i * 3 + 2) 0, src.getD (i * 3 + 1) 0, src.getD (i * 3 + 0) 0, 255]

/-- `ConvertBGRA32ToRGB24`. -/
def convertBGRA32ToRGB24 (src : List Nat) (width height : Nat) : List Nat :=
  forPixels (width * height) fun i =>
    [src.getD (i * 4 + 2) 0, src.getD (i * 4 + 1) 0, src.getD (i * 4 + 0) 0]

/-- `ConvertBGRA32ToBGR24`. -/
def convertBGRA32ToBGR24 (src : List Nat) (width height : Nat) : List Nat :=
  forPixels (width * height) fun i =>
    [src.getD (i * 4 + 0) 0, src.getD (i * 4 + 1) 0, src.getD (i * 4 + 2) 0]

/-- `ConvertRGBA32ToRGB24`. -/
def convertRGBA32ToRGB24 (src : List Nat) (width height : Nat) : List Nat :=
  forPixels (width * height) fun i =>
    [src.getD (i * 4 + 0) 0, src.getD (i * 4 + 1) 0, src.getD (i * 4 + 2) 0]

/-- `ConvertRGBA32ToBGR24`. -/
def convertRGBA32ToBGR24 (src : List Nat) (width height : Nat) : List Nat :=
  forPixels (width * height) fun i =>
    [src.getD (i * 4 + 2) 0, src.getD (i * 4 + 1) 0, src.getD (i * 4 + 0) 0]

/-- `ConvertBGR24ToRGBA32` (alpha set to 255). -/
def convertBGR24ToRGBA32 (src : List Nat) (width height : Nat) : List Nat :=
  forPixels (width * height) fun i =>
    [src.getD (i * 3 + 2) 0, src.getD (i * 3 + 1) 0, src.getD (i * 3 + 0) 0, 255]

/-- `ConvertBGR24ToBGRA32` (alpha set to 255). -/
def convertBGR24ToBGRA32 (src : List Nat) (width height : Nat) : List Nat :=
  forPixels (width * height) fun i =>
    [src.getD (i * 3 + 0) 0, src.getD (i * 3 + 1) 0, src.getD (i * 3 + 2) 0, 255]

/-! ### RGB → I420 conversion

`Y = (77R + 150G + 29B) >> 8`, `U = ((-43R - 85G + 128B) >> 8) + 128`,
`V = ((128R - 107G - 21B) >> 8) + 128`, each clamped to [0, 255].
`>>` on a signed int is the arithmetic shift, i.e. floor division by 256,
modelled by `Int.fdiv`.  The imperative loops write the full-resolution Y
plane and, at even `(x, y)` only, position `(y/2)*(w/2) + (x/2)` of the U
and V planes; for even `width`/`height` those writes are disjoint and cover
the planes exactly, which is the layout produced here (for odd dimensions
the source writes out of bounds; no theorem relies on the payload there). -/

/-- `std::clamp(v, 0, 255)`. -/
def clamp255 (v : Int) : Int := min (max v 0) 255

/-- The Y byte of a pixel, from the conversion loops. -/
def yuvY (r g b : Nat) : Int :=
  clamp255 (Int.fdiv (77 * r + 150 * g + 29 * b) 256)

/-- The U byte of a pixel, from the conversion loops. -/
def yuvU (r g b : Nat) : Int :=
  clamp255 (Int.fdiv (-43 * r - 85 * g + 128 * b) 256 + 128)

/-- The V byte of a pixel, from the conversion loops. -/
def yuvV (r g b : Nat) : Int :=
  clamp255 (Int.fdiv (128 * r - 107 * g - 21 * b) 256 + 128)

/-- Shared RGB→I420 plane construction: `rgbAt i` gives pixel `i`'s
`(r, g, b)` as read by the specific conversion.  Y plane indexed by
`y*w + x`; U/V planes indexed by `cy*(w/2) + cx` sampling pixel
`(2*cy, 2*cx)`. -/
def i420Planes (rgbAt : Nat → Nat × Nat × Nat) (w h : Nat) : List Nat :=
  (forPixels (w * h) fun i =>
    let rgb := rgbAt i
    [(yuvY rgb.1 rgb.2.1 rgb.2.2).toNat]) ++
  (forPixels (h / 2 * (w / 2)) fun j =>
    let rgb := rgbAt (2 * (j / (w / 2)) * w + 2 * (j % (w / 2)))
    [(yuvU rgb.1 rgb.2.1 rgb.2.2).toNat]) ++
  (forPixels (h / 2 * (w / 2)) fun j =>
    let rgb := rgbAt (2 * (j / (w / 2)) * w + 2 * (j % (w / 2)))
    [(yuvV rgb.1 rgb.2.1 rgb.2.2).toNat])

/-- `ConvertBGRA32ToI420`: pixel bytes are `b...g...r...a` so
`r = src[4i+2]`, `g = src[4i+1]`, `b = src[4i]`. -/
def convertBGRA32ToI420 (src : List Nat) (width height : Nat) : List Nat :=
  i420Planes (fun i =>
    (src.getD (i * 4 + 2) 0, src.getD (i * 4 + 1) 0, src.getD (i * 4 + 0) 0))
    width height

/-- `ConvertRGBA32ToI420`: `r = src[4i]`, `g = src[4i+1]`, `b = src[4i+2]`. -/
def convertRGBA32ToI420 (src : List Nat) (width height : Nat) : List Nat :=
  i420Planes (fun i =>
    (src.getD (i * 4 + 0) 0, src.getD (i * 4 + 1) 0, src.getD (i * 4 + 2) 0))
    width height

/-- `ConvertRGB24ToI420`: `r = src[3i]`, `g = src[3i+1]`, `b = src[3i+2]`. -/
def convertRGB24ToI420 (src : List Nat) (width height : Nat) : List Nat :=
  i420Planes (fun i =>
    (src.getD (i * 3 + 0) 0, src.getD (i * 3 + 1) 0, src.getD (i * 3 + 2) 0))
    width height

/-- `ConvertBGR24ToI420`: `r = src[3i+2]`, `g = src[3i+1]`, `b = src[3i]`. -/
def convertBGR24ToI420 (src : List Nat) (width height : Nat) : List Nat :=
  i420Planes (fun i =>
    (src.getD (i * 3 + 2) 0, src.getD (i * 3 + 1) 0, src.getD (i * 3 + 0) 0))
    width height

/-- `ConvertFromBGRA32`: dispatch on the output format; `none` models a
`false` return (conversion failed, no frame emitted). -/
def convertFromBGRA32 (out : FrameFormat) (src : List Nat) (w h : Nat) :
    Option (List Nat) :=
  match out with
  | .RGBA32 => some (convertBGRA32ToRGBA32 src w h)
  | .RGB24 => some (convertBGRA32ToRGB24 src w h)
  | .BGR24 => some (convertBGRA32ToBGR24 src w h)
  | .I420 => some (convertBGRA32ToI420 src w h)
  | _ => none

/-- `ConvertFromRGBA32`. -/
def convertFromRGBA32 (out : FrameFormat) (src : List Nat) (w h : Nat) :
    Option (List Nat) :=
  match out with
  | .BGRA32 => some (convertRGBA32ToBGRA32 src w h)
  | .RGB24 => some (convertRGBA32ToRGB24 src w h)
  | .BGR24 => some (convertRGBA32ToBGR24 src w h)
  | .I420 => some (convertRGBA32ToI420 src w h)
  | _ => none

/-- `ConvertFromRGB24`. -/
def convertFromRGB24 (out : FrameFormat) (src : List Nat) (w h : Nat) :
    Option (List Nat) :=
  match out with
  | .BGR24 => some (convertRGB24ToBGR24 src w h)
  | .RGBA32 => some (convertRGB24ToRGBA32 src w h)
  | .BGRA32 => some (convertRGB24ToBGRA32 src w h)
  | .I420 => some (convertRGB24ToI420 src w h)
  | _ => none

/-- `ConvertFromBGR24`. -/
def convertFromBGR24 (out : FrameFormat) (src : List Nat) (w h : Nat) :
    Option (List Nat) :=
  match out with
  | .RGB24 => some (convertBGR24ToRGB24 src w h)
  | .RGBA32 => some (convertBGR24ToRGBA32 src w h)
  | .BGRA32 => some (convertBGR24ToBGRA32 src w h)
  | .I420 => some (convertBGR24ToI420 src w h)
  | _ => none

/-- `PixelFormatConverter::ConvertFrame`: allocates an output frame of
`CalculateOutputFrameSize` bytes, copies timestamp/width/height/framerate/
keyframe flag from the input, sets the output format, runs the conversion,
and returns `nullptr` (here `none`) on unsupported input formats or failed
conversions. -/
def ConvertFrame (cfg : PixelFormatConverterConfig) (input : Frame) :
    Option Frame :=
  if !input.IsValid then none
  else
    let osz := CalculateOutputFrameSize input.width input.height cfg.output_format
    let bytes :=
      match input.format with
      | .BGRA32 => convertFromBGRA32 cfg.output_format input.data input.width input.height
      | .RGBA32 => convertFromRGBA32 cfg.output_format input.data input.width input.height
      | .RGB24 => convertFromRGB24 cfg.output_format input.data input.width input.height
      | .BGR24 => convertFromBGR24 cfg.output_format input.data input.width input.height
      | _ => none
    match bytes with
    | none => none
    | some b =>
      some { data := b, size := osz, timestamp := input.timestamp,
             format := cfg.output_format, video_info := input.video_info }

/-- `PixelFormatConverter::OnFrame`: drop null/invalid/non-video frames;
forward the input frame itself (same shared reference) when its format
already equals the configured output format; otherwise deliver the
converted frame if conversion succeeded. -/
def converterOnFrame (cfg : PixelFormatConverterConfig) (f : Frame) :
    Option Frame :=
  if !(f.IsValid && f.IsVideo) then none
  else if f.format = cfg.output_format then some f
  else ConvertFrame cfg f

/-- The frame the converter's downstream sinks receive for one input frame:
`OnFrame` composed with the converter's own `DeliverFrame` (which re-checks
validity). -/
def converterDelivered (cfg : PixelFormatConverterConfig) (f : Frame) :
    Option Frame :=
  (converterOnFrame cfg f).bind deliverFrame

/-! ## Video scaler (src/processors/video_scaler.cpp, scaler part)

`CalculateTargetDimensions` computes with 32-bit `float` aspect ratios in
the source; it is modelled here in exact rational arithmetic:
`input_aspect > target_aspect` is `iw/ih > tw/th`, i.e. `iw*th > tw*ih`,
and `uint32_t(a / (iw/ih))` is `a*ih/iw` with Nat (floor) division.  All
concrete inputs used in theorems below keep every intermediate float value
exactly representable or strictly inside a unit interval, so the exact
model and the float code agree on them. -/

/-- `ScalingAlgorithm` from video_scaler.h. -/
inductive ScalingAlgorithm where
  | BILINEAR
  | BICUBIC
  | LANCZOS
  | NEAREST
deriving DecidableEq, Repr

/-- `VideoScalerConfig` from video_scaler.h. -/
structure VideoScalerConfig where
  target_width : Nat := 1920
  target_height : Nat := 1080
  algorithm : ScalingAlgorithm := .BILINEAR
  maintain_aspect_ratio : Bool := true
  enable_threading : Bool := true
deriving DecidableEq, Repr

/-- `(n + 1) & ~1` on uint32: round up to the nearest even number. -/
def roundUpEven (n : Nat) : Nat := n + n % 2

/-- `VideoScaler::CalculateTargetDimensions`. -/
def CalculateTargetDimensions (cfg : VideoScalerConfig) (iw ih : Nat) :
    Nat × Nat :=
  if !cfg.maintain_aspect_ratio then (cfg.target_width, cfg.target_height)
  else if iw * cfg.target_height > cfg.target_width * ih then
    (roundUpEven cfg.target_width, roundUpEven (cfg.target_width * ih / iw))
  else
    (roundUpEven (cfg.target_height * iw / ih), roundUpEven cfg.target_height)

/-- `VideoScaler::IsScalingNeeded`. -/
def IsScalingNeeded (cfg : VideoScalerConfig) (iw ih : Nat) : Bool :=
  let t := CalculateTargetDimensions cfg iw ih
  iw != t.1 || ih != t.2

/-- The format and dimensions of the frame the scaler's sinks receive for
one input frame (`VideoScaler::OnFrame` followed by `DeliverFrame`), or
`none` when nothing is delivered.  Invalid/non-video frames are dropped;
when no scaling is needed the input is forwarded unchanged; otherwise
`ScaleFrame` produces a frame of the computed target dimensions for
BGRA32/RGBA32 inputs (other formats return null and are dropped), with
size `tw*th*4`, which `DeliverFrame` drops when zero.  The bilinear pixel
arithmetic itself is floating-point and no claim depends on it, so only
format and dimensions are modelled. -/
def scalerDelivered (cfg : VideoScalerConfig) (f : Frame) :
    Option (FrameFormat × Nat × Nat) :=
  if !(f.IsValid && f.IsVideo) then none
  else
    let t := CalculateTargetDimensions cfg f.width f.height
    if !(IsScalingNeeded cfg f.width f.height) then some (f.format, f.width, f.height)
    else if f.format = .BGRA32 ∨ f.format = .RGBA32 then
      if t.1 * t.2 != 0 then some (f.format, t.1, t.2) else none
    else none

/-! ## Pipeline assembler (src/core/pipeline.h)

`Pipeline::Start` starts every processor in addition order, then the sink,
then the source; it returns false at the first component whose `Start`
fails, starting nothing further and stopping nothing.  `Pipeline::Stop`
stops the source, then the processors, then the sink.  Components are
modelled by their id and the result of their `Start` call; the invocation
trace records every lifecycle call made. -/

/-- A pipeline component: node id plus the value its `Start()` returns. -/
structure MediaComponent where
  id : Nat
  startOk : Bool
deriving DecidableEq, Repr

/-- One lifecycle invocation on a component. -/
inductive NodeEvent where
  | started (id : Nat)
  | stopped (id : Nat)
deriving DecidableEq, Repr

/-- The pipeline's members: one optional source, processors in addition
order, one optional sink. -/
structure Pipeline where
  source : Option MediaComponent := none
  processors : List MediaComponent := []
  sink : Option MediaComponent := none
deriving DecidableEq, Repr

/-- The processor loop of `Pipeline::Start`: start each in order, return
false at the first failure. -/
def startProcessors : List MediaComponent → List NodeEvent × Bool
  | [] => ([], true)
  | p :: rest =>
    if p.startOk then
      let r := startProcessors rest
      (.started p.id :: r.1, r.2)
    else ([.started p.id], false)

/-- `Pipeline::Start`: trace of `Start` invocations and the returned bool.
Null members are skipped exactly as the source's null checks do; the final
statement is `return source_ && source_->Start()`. -/
def Pipeline.start (pl : Pipeline) : List NodeEvent × Bool :=
  let r := startProcessors pl.processors
  if !r.2 then (r.1, false)
  else
    match pl.sink with
    | some k =>
      if !k.startOk then (r.1 ++ [.started k.id], false)
      else
        match pl.source with
        | some s => (r.1 ++ [.started k.id, .started s.id], s.startOk)
        | none => (r.1 ++ [.started k.id], false)
    | none =>
      match pl.source with
      | some s => (r.1 ++ [.started s.id], s.startOk)
      | none => (r.1, false)

/-- `Pipeline::Stop`: source first, then processors, then sink. -/
def Pipeline.stop (pl : Pipeline) : List NodeEvent :=
  (match pl.source with | some s => [.stopped s.id] | none => []) ++
  pl.processors.map (fun p => .stopped p.id) ++
  (match pl.sink with | some k => [.stopped k.id] | none => [])

/-! ## X11 capture engine (src/capturer/screen/x11/x11_screen_capture_engine.cpp) -/

/-- `ScreenCaptureConfig` from screen_capture_config.h. -/
structure ScreenCaptureConfig where
  frame_rate : Nat := 30
  width : Nat := 0
  height : Nat := 0
  offset_x : Int := 0
  offset_y : Int := 0
  monitor_index : Nat := 0
  capture_cursor : Bool := true
  use_hardware_acceleration : Bool := true
  pixel_format : String := "BGRA"
deriving DecidableEq, Repr

/-- `CaptureResult` from screen_capture_config.h. -/
inductive CaptureResult where
  | Success
  | ErrorInitialization
  | ErrorInvalidConfig
  | ErrorNoDisplay
  | ErrorAccessDenied
  | ErrorTimeout
  | ErrorUnknown
  | NotSupported
  | AlreadyStarted
  | AlreadyInitialized
deriving DecidableEq, Repr

/-- `X11ScreenCaptureEngine::Initialize`.  The source computes
`frame_interval_ = milliseconds(1000 / config_.frame_rate)` with no
validation of `frame_rate`; for `frame_rate = 0` that integer division by
zero is undefined behavior (in practice a crash), modelled as `none`.
`displayOk` stands for `XOpenDisplay` succeeding inside `InitializeX11`. -/
def x11EngineInitialize (is_running : Bool) (displayOk : Bool)
    (cfg : ScreenCaptureConfig) : Option CaptureResult :=
  if is_running then some .ErrorInitialization
  else if cfg.frame_rate = 0 then none
  else if !displayOk then some .ErrorNoDisplay
  else some .Success

/-- `DesktopDuplicationScreenCaptureEngine::Initialize`: same unvalidated
`1000 / config_.frame_rate` before `InitializeD3D`; the platform call
results are parameters. -/
def ddEngineInitialize (is_running : Bool) (d3dResult dupResult : CaptureResult)
    (cfg : ScreenCaptureConfig) : Option CaptureResult :=
  if is_running then some .ErrorInitialization
  else if cfg.frame_rate = 0 then none
  else if d3dResult ≠ .Success then some d3dResult
  else if dupResult ≠ .Success then some dupResult
  else some .Success

/-- The fields of an `XImage` read by `ConvertXImageToFrame`. -/
structure XImage where
  width : Nat
  height : Nat
  depth : Nat
  bits_per_pixel : Nat
  bytes_per_line : Nat
  red_mask : Nat
  green_mask : Nat
  blue_mask : Nat
  data : List Nat
deriving DecidableEq, Repr

/-- The format detection of `ConvertXImageToFrame`: BGRA32 or RGBA32 for
the two known mask layouts at depth 24 / 32 bpp, otherwise UNKNOWN. -/
def detectXImageFormat (x : XImage) : FrameFormat :=
  if x.depth = 24 ∧ x.bits_per_pixel = 32 then
    if x.red_mask = 0xFF0000 ∧ x.green_mask = 0xFF00 ∧ x.blue_mask = 0xFF then
      .BGRA32
    else if x.red_mask = 0xFF ∧ x.green_mask = 0xFF00 ∧ x.blue_mask = 0xFF0000 then
      .RGBA32
    else .UNKNOWN
  else .UNKNOWN

/-- The row-by-row fallback copy: row `y` is the `width*4` bytes starting
at `y * bytes_per_line` of the XImage data. -/
def xImageRowCopy (x : XImage) : List Nat :=
  forPixels x.height fun y => (x.data.drop (y * x.bytes_per_line)).take (x.width * 4)

/-- `X11ScreenCaptureEngine::ConvertXImageToFrame` (non-null `ximage`):
builds a frame with the capture dimensions, the configured framerate, the
detected raw format — which may be UNKNOWN — and `width*height*4` bytes,
copied directly when the format is known and rows are contiguous, else
row by row.  Note the frame is returned, not dropped, when the format is
UNKNOWN. -/
def ConvertXImageToFrame (frame_rate : Nat) (x : XImage) : Frame :=
  let fmt := detectXImageFormat x
  let frame_size := x.width * x.height * 4
  { data :=
      if fmt ≠ .UNKNOWN ∧ x.bytes_per_line = x.width * 4 then
        x.data.take frame_size
      else xImageRowCopy x,
    size := frame_size,
    timestamp := 0,
    format := fmt,
    video_info := { width := x.width, height := x.height, framerate := frame_rate } }

/-- `X11ScreenCaptureEngine::CaptureFrame` followed by the frame callback
installed by `ScreenCapturer::Initialize`, i.e.
`ScreenCapturer::OnFrameCaptured`, which forwards to
`ISource::DeliverFrame`: the frame each of the capturer's sinks receives
for one successful `XGetImage` (the timestamp set from the wall clock is a
parameter). -/
def x11CaptureDeliver (frame_rate : Nat) (ts : Int) (x : XImage) : Option Frame :=
  deliverFrame { ConvertXImageToFrame frame_rate x with timestamp := ts }

/-! ## Discovery receiver (src/discovery/discovery_service.cpp)

`InternalServerListener::OnReceive` parses a datagram as
`type|id|port|version` using `std::string::find('|', pos)` and `substr`,
converts the port with `std::stoi` (whose exceptions, together with any
other exception, are caught and make the datagram ignored), truncates the
port to uint16, and notifies the listener exactly when the parsed id
differs from the service's own and the parsed type equals the service's
own.  Datagrams are modelled as `List Char`. -/

/-- `std::string::find(c, pos)`: first index `≥ pos` holding `c`. -/
def findCharFrom (data : List Char) (c : Char) (pos : Nat) : Option Nat :=
  match (data.drop pos).findIdx? (· = c) with
  | some i => some (pos + i)
  | none => none

/-- The whitespace characters `std::stoi` (via `strtol`/`isspace`) skips. -/
def isStoiSpace (c : Char) : Bool :=
  c = ' ' || c = '\t' || c = '\n' || c = '\x0b' || c = '\x0c' || c = '\r'

/-- `std::stoi`: skip leading whitespace, optional sign, then at least one
decimal digit; `none` models the `invalid_argument`/`out_of_range` throw
(int here is 32-bit). -/
def stoiModel (s : List Char) : Option Int :=
  let s1 := s.dropWhile isStoiSpace
  let sign : Int := if s1.headD ' ' = '-' then -1 else 1
  let s2 := if s1.headD ' ' = '-' ∨ s1.headD ' ' = '+' then s1.tail else s1
  let digits := s2.takeWhile Char.isDigit
  if digits.isEmpty then none
  else
    let v : Int := sign * (digits.foldl (fun a c => a * 10 + (c.toNat - 48)) 0 : Nat)
    if v < -2147483648 ∨ 2147483647 < v then none else some v

/-- `DiscoveryInfo` from discovery_service.h. -/
structure DiscoveryInfo where
  type : List Char
  id : List Char
  ip : List Char
  port : Nat
  version : List Char
deriving DecidableEq, Repr

/-- The parse step of `OnReceive`: the three separator positions, the four
substrings and the converted port, or `none` when a separator is missing or
`stoi` throws (caught and ignored).  `static_cast<uint16_t>` reduces the
int mod 2^16. -/
def parseDiscoveryDatagram (data : List Char) :
    Option (List Char × List Char × Nat × List Char) :=
  match findCharFrom data '|' 0 with
  | none => none
  | some p1 =>
    match findCharFrom data '|' (p1 + 1) with
    | none => none
    | some p2 =>
      match findCharFrom data '|' (p2 + 1) with
      | none => none
      | some p3 =>
        match stoiModel ((data.drop (p2 + 1)).take (p3 - p2 - 1)) with
        | none => none
        | some v =>
          some (data.take p1, (data.drop (p1 + 1)).take (p2 - p1 - 1),
                (v % 65536).toNat, data.drop (p3 + 1))

/-- `InternalServerListener::OnReceive` for a service with identity
`(selfType, selfId)` and a registered, live listener: the `DiscoveryInfo`
handed to `listener->OnFound`, or `none` when the datagram is ignored.
`senderIp` is `session->ClientInfo()`. -/
def discoveryOnReceive (selfType selfId senderIp : List Char)
    (data : List Char) : Option DiscoveryInfo :=
  match parseDiscoveryDatagram data with
  | none => none
  | some (t, i, p, v) =>
    if i ≠ selfId ∧ t = selfType then some ⟨t, i, senderIp, p, v⟩ else none

/-! ## Concrete test fixtures -/

/-- A 4×2 BGRA32 buffer, every pixel `(B=255, G=0, R=0, A=255)`. -/
def bluePixelsBGRA : List Nat := forPixels 8 fun _ => [255, 0, 0, 255]

/-- The 4×2 all-blue BGRA32 frame of scenario S3. -/
def blueFrame4x2 : Frame :=
  { data := bluePixelsBGRA, size := 32, timestamp := 77, format := .BGRA32,
    video_info := { width := 4, height := 2, framerate := 30 } }

/-- Converter configured BGRA32 → I420. -/
def cfgToI420 : PixelFormatConverterConfig :=
  { input_format := .BGRA32, output_format := .I420 }

/-- Converter configured for BGRA32 passthrough. -/
def cfgPassBGRA : PixelFormatConverterConfig :=
  { input_format := .BGRA32, output_format := .BGRA32 }

/-- The frame the converter emits for `blueFrame4x2` under `cfgToI420`. -/
def blueI420Frame : Frame :=
  { data := [28, 28, 28, 28, 28, 28, 28, 28, 255, 255, 107, 107], size := 12,
    timestamp := 77, format := .I420,
    video_info := { width := 4, height := 2, framerate := 30 } }

/-- A frame already in I420 format whose size (100) disagrees with its
4×2 dimensions; `Frame::IsValid` does not relate size to dimensions. -/
def i420Passthrough : Frame :=
  { data := List.replicate 100 1, size := 100, timestamp := 3, format := .I420,
    video_info := { width := 4, height := 2, framerate := 30 } }

/-- A valid 7×2 BGRA32 frame. -/
def frame7x2 : Frame :=
  { data := List.replicate 56 7, size := 56, timestamp := 9, format := .BGRA32,
    video_info := { width := 7, height := 2, framerate := 30 } }

/-- Scaler config: square 4×4 target, aspect ratio maintained. -/
def scalerCfg4 : VideoScalerConfig :=
  { target_width := 4, target_height := 4, algorithm := .BILINEAR,
    maintain_aspect_ratio := true, enable_threading := true }

/-- A 1×1 XImage at depth 24 / 32 bpp whose channel masks match neither of
the two recognized layouts. -/
def badMaskXImage : XImage :=
  { width := 1, height := 1, depth := 24, bits_per_pixel := 32,
    bytes_per_line := 4, red_mask := 0xFF00, green_mask := 0xFF0000,
    blue_mask := 0xFF, data := [9, 9, 9, 9] }

/-- Discovery fixtures: the service's own identity and two datagrams. -/
def rdType : List Char := "remote-desk".toList

/-- The service's own 32-bit id rendered as a string. -/
def rdId : List Char := "42".toList

/-- The observed sender address. -/
def rdIp : List Char := "127.0.0.1".toList

/-- A datagram carrying the service's own id (three `|` separators). -/
def rdSelfData : List Char := "remote-desk|42|9001|1.0.0".toList

/-- A datagram from a different instance of the same application type. -/
def rdPeerData : List Char := "remote-desk|7|9002|1.0.0".toList

/-! ## Helper lemmas -/

theorem forPixels_length (f : Nat → List Nat) (c : Nat)
    (hc : ∀ i, (f i).length = c) :
    ∀ n, (forPixels n f).length = n * c := by
  intro n
  induction n with
  | zero => simp [forPixels]
  | succ n ih => simp [forPixels, ih, hc, Nat.succ_mul]

theorem forPixels_getD (f : Nat → List Nat) (c : Nat)
    (hc : ∀ i, (f i).length = c) (d : Nat) :
    ∀ n i k, i < n → k < c →
      (forPixels n f).getD (c * i + k) d = (f i).getD k d := by
  intro n
  induction n with
  | zero => intro i k hi _; omega
  | succ m ih =>
    intro i k hi hk
    have hlen : (forPixels m f).length = m * c := forPixels_length f c hc m
    rcases Nat.lt_succ_iff_lt_or_eq.mp hi with hlt | heq
    · have hidx : c * i + k < (forPixels m f).length := by
        rw [hlen]
        calc c * i + k < c * i + c := by omega
          _ = c * (i + 1) := by ring
          _ ≤ c * m := Nat.mul_le_mul_left c hlt
          _ = m * c := Nat.mul_comm c m
      rw [forPixels, List.getD_append _ _ _ _ hidx]
      exact ih i k hlt hk
    · subst heq
      have hlen' : (forPixels i f).length = i * c := forPixels_length f c hc i
      have hge : (forPixels i f).length ≤ c * i + k := by
        rw [hlen', Nat.mul_comm]; omega
      rw [forPixels, List.getD_append_right _ _ _ _ hge, hlen', Nat.mul_comm c i,
        Nat.add_sub_cancel_left]

theorem list_eq_of_getD (l₁ l₂ : List Nat) (hl : l₁.length = l₂.length)
    (h : ∀ j, j < l₁.length → l₁.getD j 0 = l₂.getD j 0) : l₁ = l₂ := by
  refine List.ext_getElem hl ?_
  intro i h1 h2
  have := h i h1
  rwa [List.getD_eq_getElem l₁ 0 h1, List.getD_eq_getElem l₂ 0 h2] at this

/-- A video frame's format is never UNKNOWN (`GetFrameType UNKNOWN = 0`). -/
theorem isVideo_format_ne_unknown (f : Frame) (h : f.IsVideo = true) :
    f.format ≠ .UNKNOWN := by
  intro heq
  rw [Frame.IsVideo, heq] at h
  simp [GetFrameType, FrameFormat.code] at h

/-- What a successful `ConvertFrame` produces: output format from the
config (never UNKNOWN), metadata copied from the input, size given by
`CalculateOutputFrameSize`. -/
theorem ConvertFrame_spec (cfg : PixelFormatConverterConfig) (f g : Frame)
    (h : ConvertFrame cfg f = some g) :
    g.format = cfg.output_format ∧ g.timestamp = f.timestamp ∧
    g.video_info = f.video_info ∧
    g.size = CalculateOutputFrameSize f.width f.height cfg.output_format ∧
    cfg.output_format ≠ .UNKNOWN := by
  unfold ConvertFrame at h
  split at h
  · exact absurd h (by simp)
  · simp only at h
    split at h
    · exact absurd h (by simp)
    · rename_i b heq
      obtain rfl := Option.some.inj h
      refine ⟨rfl, rfl, rfl, rfl, fun hU => ?_⟩
      rw [hU] at heq
      split at heq <;>
        simp [convertFromBGRA32, convertFromRGBA32, convertFromRGB24,
          convertFromBGR24] at heq

/-- `startProcessors` when every processor's `Start` succeeds. -/
theorem startProcessors_all_ok (ps : List MediaComponent)
    (h : ∀ p ∈ ps, p.startOk = true) :
    startProcessors ps = (ps.map (fun p => .started p.id), true) := by
  induction ps with
  | nil => rfl
  | cons p rest ih =>
    have hp := h p (List.mem_cons_self p rest)
    have hrest := ih fun q hq => h q (List.mem_cons_of_mem p hq)
    simp [startProcessors, hp, hrest]

/-- `startProcessors` stops at the first processor whose `Start` fails. -/
theorem startProcessors_first_fail (ps₁ : List MediaComponent)
    (p : MediaComponent) (ps₂ : List MediaComponent)
    (h : ∀ q ∈ ps₁, q.startOk = true) (hp : p.startOk = false) :
    startProcessors (ps₁ ++ p :: ps₂) =
      (ps₁.map (fun q => .started q.id) ++ [.started p.id], false) := by
  induction ps₁ with
  | nil => simp [startProcessors, hp]
  | cons q rest ih =>
    have hq := h q (List.mem_cons_self q rest)
    have hrest := ih fun r hr => h r (List.mem_cons_of_mem q hr)
    simp [startProcessors, hq, hrest]

/-- Every event `startProcessors` records is a `started` event. -/
theorem startProcessors_events_started (ps : List MediaComponent) :
    ∀ e ∈ (startProcessors ps).1, ∃ i, e = .started i := by
  induction ps with
  | nil => intro e he; simp [startProcessors] at he
  | cons p rest ih =>
    intro e he
    by_cases hp : p.startOk = true
    · simp [startProcessors, hp] at he
      rcases he with rfl | he
      · exact ⟨p.id, rfl⟩
      · exact ih e he
    · simp [startProcessors, hp] at he
      exact ⟨p.id, he⟩

/-- Dimension bounds for the aspect-preserving fit with a square even
target: the computed dimensions are even and bounded by the target. -/
theorem calcDims_even_le (T iw ih w h : Nat) (alg : ScalingAlgorithm)
    (thr : Bool) (hT2 : T % 2 = 0) (hT : 0 < T) (hiw : 0 < iw) (hih : 0 < ih)
    (hc : CalculateTargetDimensions ⟨T, T, alg, true, thr⟩ iw ih = (w, h)) :
    w % 2 = 0 ∧ h % 2 = 0 ∧ w ≤ T ∧ h ≤ T := by
  unfold CalculateTargetDimensions at hc
  simp only [Bool.not_true, Bool.false_eq_true, if_false] at hc
  split at hc
  · rename_i hgt
    have hlt : ih < iw := by
      have h1 : T * ih < T * iw := by
        calc T * ih < iw * T := hgt
          _ = T * iw := Nat.mul_comm iw T
      exact Nat.lt_of_mul_lt_mul_left h1
    have hq : T * ih / iw < T :=
      (Nat.div_lt_iff_lt_mul hiw).mpr ((Nat.mul_lt_mul_left hT).mpr hlt)
    rw [Prod.mk.injEq] at hc
    obtain ⟨rfl, rfl⟩ := hc
    unfold roundUpEven
    refine ⟨by omega, by omega, by omega, by omega⟩
  · rename_i hle
    push_neg at hle
    have hq : T * iw / ih ≤ T := by
      have h1 : T * iw / ih ≤ T * ih / ih := by
        apply Nat.div_le_div_right
        calc T * iw = iw * T := Nat.mul_comm T iw
          _ ≤ T * ih := hle
      rwa [Nat.mul_div_cancel _ hih] at h1
    rw [Prod.mk.injEq] at hc
    obtain ⟨rfl, rfl⟩ := hc
    unfold roundUpEven
    refine ⟨by omega, by omega, by omega, by omega⟩

/-- A successful `DeliverFrame` passes the frame through unchanged, and
only valid frames pass. -/
theorem deliverFrame_some (f g : Frame) (h : deliverFrame f = some g) :
    g = f ∧ f.IsValid = true := by
  unfold deliverFrame at h
  split at h
  · exact ⟨(Option.some.inj h).symm, by assumption⟩
  · exact absurd h (by simp)

/-- A frame delivered by the converter is exactly the frame its `OnFrame`
produced. -/
theorem converterDelivered_some (cfg : PixelFormatConverterConfig)
    (f g : Frame) (h : converterDelivered cfg f = some g) :
    converterOnFrame cfg f = some g := by
  unfold converterDelivered at h
  rcases ho : converterOnFrame cfg f with _ | g' <;> rw [ho] at h
  · exact absurd h (by simp)
  · obtain ⟨rfl, -⟩ := deliverFrame_some g' g h
    rfl

/-- `forPixels` access with the pixel index on the left of the stride. -/
theorem forPixels_getD_mul (f : Nat → List Nat) (c : Nat)
    (hc : ∀ i, (f i).length = c) (d n i k : Nat) (hi : i < n) (hk : k < c) :
    (forPixels n f).getD (i * c + k) d = (f i).getD k d := by
  rw [Nat.mul_comm i c]
  exact forPixels_getD f c hc d n i k hi hk

/-! ## Claim theorems -/

/-- C2 (counterexample): a pipeline with source id 1, one processor id 2
and sink id 3 (all of whose `Start` calls succeed) starts the processor
before the sink, so `Start` does not invoke the sink first as claimed. -/
theorem pipeline_start_order_sink_not_first :
    Pipeline.start ⟨some ⟨1, true⟩, [⟨2, true⟩], some ⟨3, true⟩⟩ =
      ([.started 2, .started 3, .started 1], true) ∧
    [NodeEvent.started 2, .started 3, .started 1] ≠
      [.started 3, .started 2, .started 1] := by
  decide

/-- C2 (amended): `Pipeline::Start` starts each processor in addition
order first, then the sink, then the source last; it returns false at the
first component whose `Start` fails and stops nothing (every recorded
event is a `started` event).  `Pipeline::Stop` stops the source first,
then the processors in order, then the sink last. -/
theorem pipeline_start_processors_then_sink_then_source :
    (∀ (s k : MediaComponent) (ps : List MediaComponent),
        (∀ p ∈ ps, p.startOk = true) → k.startOk = true →
        Pipeline.start ⟨some s, ps, some k⟩ =
          (ps.map (fun p => .started p.id) ++ [.started k.id, .started s.id],
           s.startOk)) ∧
    (∀ (s k p : MediaComponent) (ps₁ ps₂ : List MediaComponent),
        (∀ q ∈ ps₁, q.startOk = true) → p.startOk = false →
        Pipeline.start ⟨some s, ps₁ ++ p :: ps₂, some k⟩ =
          (ps₁.map (fun q => .started q.id) ++ [.started p.id], false)) ∧
    (∀ pl : Pipeline, ∀ e ∈ (Pipeline.start pl).1, ∃ i, e = .started i) ∧
    (∀ (s k : MediaComponent) (ps : List MediaComponent),
        Pipeline.stop ⟨some s, ps, some k⟩ =
          .stopped s.id :: (ps.map (fun p => .stopped p.id) ++ [.stopped k.id])) := by
  refine ⟨?_, ?_, ?_, ?_⟩
  · intro s k ps hps hk
    unfold Pipeline.start
    rw [startProcessors_all_ok ps hps]
    simp [hk]
  · intro s k p ps₁ ps₂ hps hp
    unfold Pipeline.start
    rw [startProcessors_first_fail ps₁ p ps₂ hps hp]
    simp
  · intro pl e he
    unfold Pipeline.start at he
    simp only at he
    split at he
    · exact startProcessors_events_started pl.processors e he
    · split at he
      · split at he
        · rcases List.mem_append.mp he with h1 | h1
          · exact startProcessors_events_started pl.processors e h1
          · simp at h1
            exact ⟨_, h1⟩
        · split at he
          · rcases List.mem_append.mp he with h1 | h1
            · exact startProcessors_events_started pl.processors e h1
            · simp at h1
              rcases h1 with rfl | rfl
              · exact ⟨_, rfl⟩
              · exact ⟨_, rfl⟩
          · rcases List.mem_append.mp he with h1 | h1
            · exact startProcessors_events_started pl.processors e h1
            · simp at h1
              exact ⟨_, h1⟩
      · split at he
        · rcases List.mem_append.mp he with h1 | h1
          · exact startProcessors_events_started pl.processors e h1
          · simp at h1
            exact ⟨_, h1⟩
        · exact startProcessors_events_started pl.processors e he
  · intro s k ps
    simp [Pipeline.stop]

/-- C2 (witness): the amended start order evaluated on the concrete
three-component pipeline. -/
theorem pipeline_start_order_witness :
    Pipeline.start ⟨some ⟨1, true⟩, [⟨2, true⟩], some ⟨3, true⟩⟩ =
      ([.started 2, .started 3, .started 1], true) := by
  have h := pipeline_start_processors_then_sink_then_source.1
    ⟨1, true⟩ ⟨3, true⟩ [⟨2, true⟩] (by decide) (by decide)
  simpa using h

/-- C3 (counterexample): for the 4×2 all-blue BGRA32 input the delivered
I420 frame's Y plane is all 28, not all 29 as claimed:
`(77·0 + 150·0 + 29·255) >> 8 = 28`. -/
theorem bgra_blue_yplane_not_29 :
    (converterDelivered cfgToI420 blueFrame4x2).map Frame.data =
      some [28, 28, 28, 28, 28, 28, 28, 28, 255, 255, 107, 107] ∧
    (converterDelivered cfgToI420 blueFrame4x2).map Frame.data ≠
      some [29, 29, 29, 29, 29, 29, 29, 29, 255, 255, 107, 107] := by
  decide

/-- C3 (amended): converting the 4×2 all-blue BGRA32 frame to I420
delivers a 12-byte frame whose Y plane is all 28, U plane all 255 and V
plane all 107. -/
theorem bgra_blue_i420_eval :
    (converterDelivered cfgToI420 blueFrame4x2).map (fun f => (f.data, f.size)) =
      some ([28, 28, 28, 28, 28, 28, 28, 28, 255, 255, 107, 107], 12) := by
  decide

/-- C4: with `frame_rate = 0` neither engine's `Initialize` returns
`ErrorInvalidConfig`; both compute `1000 / config_.frame_rate` before any
validation, a division by zero (undefined behavior, modelled as `none`). -/
theorem frame_rate_zero_divides_by_zero (displayOk : Bool)
    (d3d dup : CaptureResult) (cfg : ScreenCaptureConfig)
    (h : cfg.frame_rate = 0) :
    x11EngineInitialize false displayOk cfg = none ∧
    ddEngineInitialize false d3d dup cfg = none ∧
    (none : Option CaptureResult) ≠ some .ErrorInvalidConfig := by
  unfold x11EngineInitialize ddEngineInitialize
  simp [h]

/-- C4 (witness): the divergence at the concrete failing configuration. -/
theorem frame_rate_zero_divides_by_zero_witness :
    x11EngineInitialize false true { frame_rate := 0 } = none ∧
    ddEngineInitialize false .Success .Success { frame_rate := 0 } = none ∧
    (none : Option CaptureResult) ≠ some .ErrorInvalidConfig :=
  frame_rate_zero_divides_by_zero true .Success .Success { frame_rate := 0 } rfl

/-- C7: a valid video frame whose format already equals the configured
output format is forwarded by `OnFrame` as the identical frame (the source
forwards the same `shared_ptr`; the model returns the input unchanged). -/
theorem matching_format_zero_copy (cfg : PixelFormatConverterConfig)
    (f : Frame) (hv : f.IsValid = true) (hvid : f.IsVideo = true)
    (hf : f.format = cfg.output_format) :
    converterDelivered cfg f = some f := by
  unfold converterDelivered converterOnFrame deliverFrame
  simp [hv, hvid, hf]

/-- C7 (witness): BGRA32 passthrough of the concrete 4×2 frame. -/
theorem matching_format_zero_copy_witness :
    converterDelivered cfgPassBGRA blueFrame4x2 = some blueFrame4x2 :=
  matching_format_zero_copy cfgPassBGRA blueFrame4x2 (by decide) (by decide)
    (by decide)

/-- C9: for every datagram the receiver parses successfully as four
`|`-separated fields, the listener is notified exactly when the parsed id
differs from the service's own id and the parsed type equals the service's
own type; in particular a datagram carrying the service's own id is never
delivered. -/
theorem discovery_notify_iff (st si ip data t i : List Char) (p : Nat)
    (v : List Char)
    (hp : parseDiscoveryDatagram data = some (t, i, p, v)) :
    (discoveryOnReceive st si ip data ≠ none ↔ (i ≠ si ∧ t = st)) ∧
    (i = si → discoveryOnReceive st si ip data = none) := by
  unfold discoveryOnReceive
  rw [hp]
  dsimp only
  constructor
  · by_cases hcond : i ≠ si ∧ t = st
    · rw [if_pos hcond]
      simp [hcond]
    · rw [if_neg hcond]
      simpa using hcond
  · intro hii
    rw [if_neg (by simp [hii])]

/-- C9 (witness): the service `("remote-desk", id "42")` ignores its own
datagram `remote-desk|42|9001|1.0.0` and accepts a peer's datagram
`remote-desk|7|9002|1.0.0`. -/
theorem discovery_notify_witness :
    discoveryOnReceive rdType rdId rdIp rdSelfData = none ∧
    discoveryOnReceive rdType rdId rdIp rdPeerData ≠ none := by
  constructor
  · exact (discovery_notify_iff rdType rdId rdIp rdSelfData rdType rdId 9001
      "1.0.0".toList (by decide)).2 (by decide)
  · exact (discovery_notify_iff rdType rdId rdIp rdPeerData rdType
      "7".toList 9002 "1.0.0".toList (by decide)).1.mpr (by decide)

/-- C10: when the converter actually converts (input format differs from
the configured output format), the delivered frame keeps the input's
timestamp, width, height, framerate and keyframe flag, and carries the
configured output format. -/
theorem convert_preserves_metadata (cfg : PixelFormatConverterConfig)
    (f g : Frame) (hne : f.format ≠ cfg.output_format)
    (hd : converterDelivered cfg f = some g) :
    g.timestamp = f.timestamp ∧ g.width = f.width ∧ g.height = f.height ∧
    g.framerate = f.framerate ∧ g.is_keyframe = f.is_keyframe ∧
    g.format = cfg.output_format := by
  have hof := converterDelivered_some cfg f g hd
  unfold converterOnFrame at hof
  split at hof
  · exact absurd hof (by simp)
  · obtain ⟨h1, h2, h3, -, -⟩ := ConvertFrame_spec cfg f g hof
    simp [Frame.width, Frame.height, Frame.framerate, Frame.is_keyframe,
      h1, h2, h3]

/-- C10 (witness): metadata preservation at the concrete BGRA32 → I420
conversion of the 4×2 frame. -/
theorem convert_preserves_metadata_witness :
    blueI420Frame.timestamp = blueFrame4x2.timestamp ∧
    blueI420Frame.width = blueFrame4x2.width ∧
    blueI420Frame.height = blueFrame4x2.height ∧
    blueI420Frame.framerate = blueFrame4x2.framerate ∧
    blueI420Frame.is_keyframe = blueFrame4x2.is_keyframe ∧
    blueI420Frame.format = cfgToI420.output_format :=
  convert_preserves_metadata cfgToI420 blueFrame4x2 blueI420Frame (by decide)
    (by decide)

/-- C1 (counterexample): the X11 engine delivers to its sinks a frame whose
format is UNKNOWN when the XImage masks match neither recognized layout;
with no processors in the pipeline this frame reaches the terminal sink,
contradicting the claim that it never sees `format = UNKNOWN`. -/
theorem unknown_format_reaches_terminal_sink :
    (x11CaptureDeliver 30 5 badMaskXImage).map Frame.format =
      some FrameFormat.UNKNOWN ∧
    x11CaptureDeliver 30 5 badMaskXImage ≠ none := by
  decide

/-- C1 (amended): every frame `DeliverFrame` hands to a sink is valid, and
the converter and scaler never deliver an UNKNOWN-format frame (non-video
inputs are dropped and conversion outputs carry a supported format) — but
the capture source itself may deliver UNKNOWN-format frames, so the
terminal sink is protected only when fed through a processor. -/
theorem delivered_frames_valid_processors_drop_unknown :
    (∀ f g : Frame, deliverFrame f = some g → g.IsValid = true) ∧
    (∀ (cfg : PixelFormatConverterConfig) (f g : Frame),
        converterDelivered cfg f = some g → g.format ≠ .UNKNOWN) ∧
    (∀ (cfg : VideoScalerConfig) (f : Frame) (fmt : FrameFormat) (w h : Nat),
        scalerDelivered cfg f = some (fmt, w, h) → fmt ≠ .UNKNOWN) := by
  refine ⟨?_, ?_, ?_⟩
  · intro f g h
    obtain ⟨rfl, hv⟩ := deliverFrame_some f g h
    exact hv
  · intro cfg f g hd
    have hof := converterDelivered_some cfg f g hd
    unfold converterOnFrame at hof
    split at hof
    · exact absurd hof (by simp)
    · rename_i hok
      simp at hok
      by_cases hfe : f.format = cfg.output_format
      · rw [if_pos hfe] at hof
        obtain rfl := Option.some.inj hof
        exact isVideo_format_ne_unknown f hok.2
      · rw [if_neg hfe] at hof
        obtain ⟨h1, -, -, -, h5⟩ := ConvertFrame_spec cfg f g hof
        rw [h1]
        exact h5
  · intro cfg f fmt w h hd
    unfold scalerDelivered at hd
    split at hd
    · exact absurd hd (by simp)
    · rename_i hok
      simp only [Bool.not_eq_true', Bool.and_eq_false_iff] at hok
      have hvid : f.IsVideo = true := by
        revert hok
        simp
      simp only at hd
      split at hd
      · have := Option.some.inj hd
        rw [Prod.mk.injEq, Prod.mk.injEq] at this
        obtain ⟨rfl, -, -⟩ := this
        exact isVideo_format_ne_unknown f hvid
      · split at hd
        · split at hd
          · have := Option.some.inj hd
            rw [Prod.mk.injEq, Prod.mk.injEq] at this
            obtain ⟨rfl, -, -⟩ := this
            exact isVideo_format_ne_unknown f hvid
          · exact absurd hd (by simp)
        · exact absurd hd (by simp)

/-- C1 (witness): the amended invariants at concrete frames — the 4×2 blue
frame passes validity, its converted I420 output and the scaled frame of
the 7×2 input carry non-UNKNOWN formats. -/
theorem delivered_frames_valid_witness :
    blueFrame4x2.IsValid = true ∧
    blueI420Frame.format ≠ FrameFormat.UNKNOWN ∧
    FrameFormat.BGRA32 ≠ FrameFormat.UNKNOWN :=
  ⟨delivered_frames_valid_processors_drop_unknown.1 blueFrame4x2 blueFrame4x2
      (by decide),
   delivered_frames_valid_processors_drop_unknown.2.1 cfgToI420 blueFrame4x2
      blueI420Frame (by decide),
   delivered_frames_valid_processors_drop_unknown.2.2 scalerCfg4 frame7x2
      .BGRA32 4 2 (by decide)⟩

/-- C6 (counterexample): a frame already in I420 format whose size (100)
is inconsistent with its 4×2 dimensions is forwarded unchanged by the
converter (passthrough), so an I420 frame whose size violates
`w·h + 2·(w/2)·(h/2)` is delivered. -/
theorem i420_passthrough_size_unchecked :
    converterDelivered cfgToI420 i420Passthrough = some i420Passthrough ∧
    i420Passthrough.format = FrameFormat.I420 ∧
    i420Passthrough.size ≠
      i420Passthrough.width * i420Passthrough.height +
        2 * (i420Passthrough.width / 2) * (i420Passthrough.height / 2) := by
  decide

/-- C6 (amended): every I420 frame the converter produces by conversion
(input not already I420) with even input dimensions has size
`w·h + 2·(w/2)·(h/2)`; a frame already in I420 format is forwarded with
its original size. -/
theorem converted_i420_size_formula (cfg : PixelFormatConverterConfig)
    (f g : Frame) (ho : cfg.output_format = .I420) (hne : f.format ≠ .I420)
    (hw : f.width % 2 = 0) (hh : f.height % 2 = 0)
    (hd : converterDelivered cfg f = some g) :
    g.size = f.width * f.height + 2 * (f.width / 2) * (f.height / 2) := by
  have hof := converterDelivered_some cfg f g hd
  unfold converterOnFrame at hof
  split at hof
  · exact absurd hof (by simp)
  · have hfe : f.format ≠ cfg.output_format := by
      rw [ho]
      exact hne
    rw [if_neg hfe] at hof
    obtain ⟨-, -, -, h4, -⟩ := ConvertFrame_spec cfg f g hof
    rw [h4, ho]
    simp only [CalculateOutputFrameSize]
    obtain ⟨a, ha⟩ : ∃ a, f.width = 2 * a := ⟨f.width / 2, by omega⟩
    obtain ⟨b, hb⟩ : ∃ b, f.height = 2 * b := ⟨f.height / 2, by omega⟩
    rw [ha, hb]
    have e1 : 2 * a * (2 * b) = 4 * (a * b) := by ring
    have e2 : 2 * a / 2 = a := by omega
    have e3 : 2 * b / 2 = b := by omega
    rw [e1, e2, e3]
    have e4 : 2 * a * b = 2 * (a * b) := by ring
    rw [e4]
    omega

/-- C6 (witness): the size formula at the concrete BGRA32 → I420
conversion of the 4×2 frame. -/
theorem converted_i420_size_witness :
    blueI420Frame.size = blueFrame4x2.width * blueFrame4x2.height +
      2 * (blueFrame4x2.width / 2) * (blueFrame4x2.height / 2) :=
  converted_i420_size_formula cfgToI420 blueFrame4x2 blueI420Frame rfl
    (by decide) (by decide) (by decide) (by decide)

/-- C5 (counterexample): scaling a 7×2 input with target (4, 4) and
aspect ratio maintained emits dimensions (4, 2); the claimed ratio bound
`|W'/H' − W/H| ≤ 1/min(W', H')` fails there: `|4/2 − 7/2| = 3/2 > 1/2`.
(Every intermediate float value of the source is exactly representable at
these inputs, so the exact-arithmetic model agrees with the float code.) -/
theorem aspect_ratio_bound_fails :
    scalerDelivered scalerCfg4 frame7x2 = some (.BGRA32, 4, 2) ∧
    ¬(|(4 : ℚ) / 2 - 7 / 2| ≤ 1 / min (4 : ℚ) 2) := by
  constructor
  · decide
  · norm_num [abs]

/-- C5 (amended): with an even square target `(T, T)` and aspect ratio
maintained, every emitted frame has even dimensions bounded by `T`; the
claimed ratio-deviation bound `|W'/H' − W/H| ≤ 1/min(W', H')` does not
hold in general (rounding a small fitted dimension up to even can change
the ratio by more), and for odd `T` the bound `W' ≤ T` can also fail. -/
theorem aspect_fit_dims_even_and_bounded (T : Nat) (alg : ScalingAlgorithm)
    (thr : Bool) (f : Frame) (fmt : FrameFormat) (w h : Nat)
    (hT2 : T % 2 = 0) (hT : 0 < T) (hiw : 0 < f.width) (hih : 0 < f.height)
    (hd : scalerDelivered ⟨T, T, alg, true, thr⟩ f = some (fmt, w, h)) :
    w % 2 = 0 ∧ h % 2 = 0 ∧ w ≤ T ∧ h ≤ T := by
  unfold scalerDelivered at hd
  split at hd
  · exact absurd hd (by simp)
  · simp only at hd
    split at hd
    · rename_i hns
      have hinj := Option.some.inj hd
      rw [Prod.mk.injEq, Prod.mk.injEq] at hinj
      obtain ⟨-, rfl, rfl⟩ := hinj
      unfold IsScalingNeeded at hns
      simp only [Bool.not_eq_true'] at hns
      rw [Bool.or_eq_false_iff] at hns
      obtain ⟨h1, h2⟩ := hns
      simp only [bne_eq_false_iff_eq] at h1 h2
      have hc : CalculateTargetDimensions ⟨T, T, alg, true, thr⟩ f.width f.height =
          (f.width, f.height) := by
        rw [Prod.ext_iff]
        exact ⟨h1.symm, h2.symm⟩
      exact calcDims_even_le T f.width f.height f.width f.height alg thr hT2 hT
        hiw hih hc
    · split at hd
      · split at hd
        · have hinj := Option.some.inj hd
          rw [Prod.mk.injEq, Prod.mk.injEq] at hinj
          obtain ⟨-, rfl, rfl⟩ := hinj
          exact calcDims_even_le T f.width f.height _ _ alg thr hT2 hT hiw hih
            Prod.mk.eta
        · exact absurd hd (by simp)
      · exact absurd hd (by simp)

/-- C5 (witness): the bounds at the concrete 7×2 input and target (4, 4):
the emitted (4, 2) is even and within the target. -/
theorem aspect_fit_dims_witness :
    4 % 2 = 0 ∧ 2 % 2 = 0 ∧ 4 ≤ 4 ∧ 2 ≤ 4 :=
  aspect_fit_dims_even_and_bounded 4 .BILINEAR true frame7x2 .BGRA32 4 2 rfl
    (by decide) (by decide) (by decide) (by decide)

/-- Byte access into `ConvertBGRA32ToRGBA32`'s output. -/
theorem convertBGRA32ToRGBA32_getD (s : List Nat) (w h i k : Nat)
    (hi : i < w * h) (hk : k < 4) :
    (convertBGRA32ToRGBA32 s w h).getD (i * 4 + k) 0 =
      [s.getD (i * 4 + 2) 0, s.getD (i * 4 + 1) 0, s.getD (i * 4 + 0) 0,
        s.getD (i * 4 + 3) 0].getD k 0 := by
  unfold convertBGRA32ToRGBA32
  exact forPixels_getD_mul
    (fun i => [s.getD (i * 4 + 2) 0, s.getD (i * 4 + 1) 0, s.getD (i * 4 + 0) 0,
      s.getD (i * 4 + 3) 0]) 4 (fun _ => rfl) 0 (w * h) i k hi hk

/-- Byte access into `ConvertRGBA32ToBGRA32`'s output. -/
theorem convertRGBA32ToBGRA32_getD (s : List Nat) (w h i k : Nat)
    (hi : i < w * h) (hk : k < 4) :
    (convertRGBA32ToBGRA32 s w h).getD (i * 4 + k) 0 =
      [s.getD (i * 4 + 2) 0, s.getD (i * 4 + 1) 0, s.getD (i * 4 + 0) 0,
        s.getD (i * 4 + 3) 0].getD k 0 := by
  unfold convertRGBA32ToBGRA32
  exact forPixels_getD_mul
    (fun i => [s.getD (i * 4 + 2) 0, s.getD (i * 4 + 1) 0, s.getD (i * 4 + 0) 0,
      s.getD (i * 4 + 3) 0]) 4 (fun _ => rfl) 0 (w * h) i k hi hk

/-- Byte access into `ConvertRGB24ToBGR24`'s output. -/
theorem convertRGB24ToBGR24_getD (s : List Nat) (w h i k : Nat)
    (hi : i < w * h) (hk : k < 3) :
    (convertRGB24ToBGR24 s w h).getD (i * 3 + k) 0 =
      [s.getD (i * 3 + 2) 0, s.getD (i * 3 + 1) 0, s.getD (i * 3 + 0) 0].getD k 0 := by
  unfold convertRGB24ToBGR24
  exact forPixels_getD_mul
    (fun i => [s.getD (i * 3 + 2) 0, s.getD (i * 3 + 1) 0, s.getD (i * 3 + 0) 0])
    3 (fun _ => rfl) 0 (w * h) i k hi hk

/-- Output length of `ConvertBGRA32ToRGBA32`. -/
theorem convertBGRA32ToRGBA32_length (s : List Nat) (w h : Nat) :
    (convertBGRA32ToRGBA32 s w h).length = w * h * 4 := by
  unfold convertBGRA32ToRGBA32
  exact forPixels_length
    (fun i => [s.getD (i * 4 + 2) 0, s.getD (i * 4 + 1) 0, s.getD (i * 4 + 0) 0,
      s.getD (i * 4 + 3) 0]) 4 (fun _ => rfl) (w * h)

/-- Output length of `ConvertRGBA32ToBGRA32`. -/
theorem convertRGBA32ToBGRA32_length (s : List Nat) (w h : Nat) :
    (convertRGBA32ToBGRA32 s w h).length = w * h * 4 := by
  unfold convertRGBA32ToBGRA32
  exact forPixels_length
    (fun i => [s.getD (i * 4 + 2) 0, s.getD (i * 4 + 1) 0, s.getD (i * 4 + 0) 0,
      s.getD (i * 4 + 3) 0]) 4 (fun _ => rfl) (w * h)

/-- Output length of `ConvertRGB24ToBGR24`. -/
theorem convertRGB24ToBGR24_length (s : List Nat) (w h : Nat) :
    (convertRGB24ToBGR24 s w h).length = w * h * 3 := by
  unfold convertRGB24ToBGR24
  exact forPixels_length
    (fun i => [s.getD (i * 3 + 2) 0, s.getD (i * 3 + 1) 0, s.getD (i * 3 + 0) 0])
    3 (fun _ => rfl) (w * h)

/-- Applying the R/B swap twice restores every byte (4-byte pixels). -/
theorem swap4_roundtrip_getD (s : List Nat) (w h i k : Nat)
    (hi : i < w * h) (hk : k < 4) :
    (convertRGBA32ToBGRA32 (convertBGRA32ToRGBA32 s w h) w h).getD (i * 4 + k) 0 =
      s.getD (i * 4 + k) 0 := by
  have h4 : k = 0 ∨ k = 1 ∨ k = 2 ∨ k = 3 := by omega
  rcases h4 with rfl | rfl | rfl | rfl <;>
    rw [convertRGBA32ToBGRA32_getD _ w h i _ hi (by omega)] <;>
    simp only [List.getD_cons_zero, List.getD_cons_succ] <;>
    rw [convertBGRA32ToRGBA32_getD s w h i _ hi (by omega)] <;> rfl

/-- Applying the R/B swap twice restores every byte (3-byte pixels). -/
theorem swap3_roundtrip_getD (s : List Nat) (w h i k : Nat)
    (hi : i < w * h) (hk : k < 3) :
    (convertBGR24ToRGB24 (convertRGB24ToBGR24 s w h) w h).getD (i * 3 + k) 0 =
      s.getD (i * 3 + k) 0 := by
  have h3 : k = 0 ∨ k = 1 ∨ k = 2 := by omega
  unfold convertBGR24ToRGB24
  rcases h3 with rfl | rfl | rfl <;>
    rw [convertRGB24ToBGR24_getD _ w h i _ hi (by omega)] <;>
    simp only [List.getD_cons_zero, List.getD_cons_succ] <;>
    rw [convertRGB24ToBGR24_getD s w h i _ hi (by omega)] <;> rfl

/-- C8: `BGRA32 → RGBA32 → BGRA32` and `RGB24 → BGR24 → RGB24` reproduce
the input buffer byte for byte. -/
theorem channel_swap_roundtrip (src src2 : List Nat) (w h w2 h2 : Nat)
    (hl : src.length = w * h * 4) (hl2 : src2.length = w2 * h2 * 3) :
    convertRGBA32ToBGRA32 (convertBGRA32ToRGBA32 src w h) w h = src ∧
    convertBGR24ToRGB24 (convertRGB24ToBGR24 src2 w2 h2) w2 h2 = src2 := by
  constructor
  · have hlen :
        (convertRGBA32ToBGRA32 (convertBGRA32ToRGBA32 src w h) w h).length =
          w * h * 4 := convertRGBA32ToBGRA32_length _ w h
    refine list_eq_of_getD _ _ ?_ ?_
    · rw [hlen, hl]
    · intro j hj
      rw [hlen] at hj
      have hi : j / 4 < w * h := by omega
      have hj4 : j = j / 4 * 4 + j % 4 := by omega
      rw [hj4]
      exact swap4_roundtrip_getD src w h (j / 4) (j % 4) hi (by omega)
  · have hlen :
        (convertBGR24ToRGB24 (convertRGB24ToBGR24 src2 w2 h2) w2 h2).length =
          w2 * h2 * 3 := convertRGB24ToBGR24_length _ w2 h2
    refine list_eq_of_getD _ _ ?_ ?_
    · rw [hlen, hl2]
    · intro j hj
      rw [hlen] at hj
      have hi : j / 3 < w2 * h2 := by omega
      have hj3 : j = j / 3 * 3 + j % 3 := by omega
      rw [hj3]
      exact swap3_roundtrip_getD src2 w2 h2 (j / 3) (j % 3) hi (by omega)

/-- C8 (witness): the roundtrips on concrete one-pixel buffers. -/
theorem channel_swap_roundtrip_witness :
    convertRGBA32ToBGRA32 (convertBGRA32ToRGBA32 [1, 2, 3, 4] 1 1) 1 1 =
      [1, 2, 3, 4] ∧
    convertBGR24ToRGB24 (convertRGB24ToBGR24 [5, 6, 7] 1 1) 1 1 = [5, 6, 7] :=
  channel_swap_roundtrip [1, 2, 3, 4] [5, 6, 7] 1 1 1 1 rfl rfl

end RemoteDesk
